import Mathlib

set_option autoImplicit false

/-!
# Verification of the `tools-for-agents` tool contract and agent loop

A shallow embedding, in Lean 4, of the core of the `tools-for-agents`
repository:

* `src/tools_for_agents/exceptions.py` — the exception taxonomy
  (`ToolExecutionError` and its subclasses `AuthenticationError`,
  `RateLimitError`, `ValidationError`), plus the external exception classes
  that actually occur at runtime (pydantic's `ValidationError`, Python's
  `ValueError`);
* `src/tools_for_agents/base.py` — `BaseTool.validate_and_execute`,
  `BaseTool.to_openai_schema`, `BaseTool.to_anthropic_schema`;
* `src/tools_for_agents/tools/google_search.py` and
  `src/tools_for_agents/tools/web_fetch/web_fetch_tool.py` — the two tools'
  pydantic input models (field types, bounds and defaults) and constructor;
* `examples/company_research_agent/agent.py` — the
  `CompanyResearchAgent.research_company` agent loop.

Python exceptions are modelled with `Except`; external effects (the model
endpoint, the two tools' network calls) are modelled as explicit
state-passing oracles over an arbitrary state type `σ`, so that counting
instrumentation (call counters) is expressed by instantiating `σ`, not by
changing the embedded code.
-/

/-! ## Python values and exceptions -/

/-- A Python value as it can appear in a keyword-argument mapping passed to
`validate_and_execute` (the universe needed by the claims: strings, ints and
`None`). -/
inductive PyValue where
  | pyStr (s : String)
  | pyInt (n : Int)
  | pyNone
deriving DecidableEq, Repr

/-- One entry of a pydantic `ValidationError`: the offending field (`loc`)
and the constraint violated (pydantic's error `type`, e.g. `missing`,
`string_type`, `int_type`, `int_parsing`, `greater_than_equal`,
`less_than_equal`, `literal_error`). -/
structure FieldError where
  loc : String
  type : String
deriving DecidableEq, Repr

/-- The Python exception classes relevant to the claims.

`toolExecutionError`, `authenticationError`, `rateLimitError` and
`validationError` are the classes of `exceptions.py` (the repository's
error taxonomy); `pydanticValidationError` is pydantic's own
`ValidationError` class, raised by `self.input_model(**kwargs)` and NOT a
subclass of `ToolExecutionError`; `valueError` is Python's builtin
`ValueError`, raised by `GoogleSearchTool.__init__`. -/
inductive PyError where
  | toolExecutionError (msg : String)
  | authenticationError (msg : String)
  | rateLimitError (msg : String)
  | validationError (msg : String)
  | pydanticValidationError (errs : List FieldError)
  | valueError (msg : String)
deriving DecidableEq, Repr

/-- `isinstance(e, ToolExecutionError)`: membership in the repository's
exception taxonomy of `exceptions.py`.  Pydantic's `ValidationError` and the
builtin `ValueError` are outside it. -/
def isToolExecutionError : PyError → Bool
  | PyError.toolExecutionError _ => true
  | PyError.authenticationError _ => true
  | PyError.rateLimitError _ => true
  | PyError.validationError _ => true
  | PyError.pydanticValidationError _ => false
  | PyError.valueError _ => false

/-- Is the error the `ValidationError` variant declared in `exceptions.py`
(the taxonomy's validation-failure variant)? -/
def isTaxonomyValidationError : PyError → Bool
  | PyError.validationError _ => true
  | _ => false

/-- Is the error one of the three variants that the extension point may
raise per the spec: `AuthenticationError` (AuthenticationFailure),
`RateLimitError` (RateLimited) or `ToolExecutionError` (ExecutionFailure)? -/
def isExtensionPointError : PyError → Bool
  | PyError.authenticationError _ => true
  | PyError.rateLimitError _ => true
  | PyError.toolExecutionError _ => true
  | _ => false

/-- Model of Python's `str(e)` on the exceptions above.  For the
repository's own exceptions this is the constructor-argument message; for a
pydantic `ValidationError` it is pydantic's rendering, which lists each
offending field together with the violated constraint (the exact punctuation
of pydantic's rendering is abstracted, the field/constraint content is
kept). -/
def pyErrMsg : PyError → String
  | PyError.toolExecutionError m => m
  | PyError.authenticationError m => m
  | PyError.rateLimitError m => m
  | PyError.validationError m => m
  | PyError.pydanticValidationError errs =>
      String.intercalate "\n" (errs.map (fun fe => fe.loc ++ ": " ++ fe.type))
  | PyError.valueError m => m

/-! ## Raw keyword arguments -/

/-- The raw `**kwargs` mapping handed to `validate_and_execute`. -/
def RawArgs : Type := List (String × PyValue)

/-- Keyword lookup in a raw argument mapping (Python keyword arguments have
unique keys; first match). -/
def lookupArg : RawArgs → String → Option PyValue
  | [], _ => none
  | (k, v) :: rest, key => if k = key then some v else lookupArg rest key

/-! ## The contract layer: `BaseTool.validate_and_execute` (base.py 51-63)

```python
def validate_and_execute(self, **kwargs) -> OutputT:
    validated_input = self.input_model(**kwargs)
    result = self.execute(validated_input)
    return result
```

`self.input_model(**kwargs)` is pydantic construction: on failure it raises
pydantic's `ValidationError` carrying the list of field errors; nothing in
`validate_and_execute` catches anything, so both that exception and any
exception raised by `execute` propagate to the caller unchanged.  `execute`
is an external effectful method: it is modelled as a state-passing oracle
`I → σ → Except PyError O × σ`. -/

/-- Shallow embedding of `BaseTool.validate_and_execute`, generic in the
tool's pydantic input model (`validate`) and its `execute` extension point.
Pydantic validation failure raises `pydanticValidationError errs` without
touching `execute` (the state `s` is returned unchanged); on validation
success `execute` is called on the validated input and its outcome — normal
return or raised exception — is returned as is. -/
def validate_and_execute_s {I O σ : Type}
    (validate : RawArgs → Except (List FieldError) I)
    (execute : I → σ → Except PyError O × σ)
    (args : RawArgs) (s : σ) : Except PyError O × σ :=
  match validate args with
  | Except.error errs => (Except.error (PyError.pydanticValidationError errs), s)
  | Except.ok i => execute i s

/-- An `execute` oracle instrumented with a call counter: runs the
underlying oracle and increments the counter on every invocation. -/
def countingExec {I O σ : Type} (execute : I → σ → Except PyError O × σ) :
    I → σ × Nat → Except PyError O × (σ × Nat) :=
  fun i p => ((execute i p.1).1, ((execute i p.1).2, p.2 + 1))

/-! ## `GoogleSearchInput` (google_search.py 12-21)

```python
class GoogleSearchInput(BaseModel):
    query: str = Field(description="The search query to execute")
    num_results: int = Field(default=5, ge=1, le=10, ...)
```
-/

/-- The validated `GoogleSearchInput` record. -/
structure GoogleSearchInput where
  query : String
  num_results : Int
deriving DecidableEq, Repr

/-- Bounds check for `num_results` (`ge=1, le=10`); pydantic reports the
violated constraint as `greater_than_equal` / `less_than_equal`. -/
def checkNumResults (n : Int) : Except FieldError Int :=
  if n < 1 then Except.error { loc := "num_results", type := "greater_than_equal" }
  else if 10 < n then Except.error { loc := "num_results", type := "less_than_equal" }
  else Except.ok n

/-- Field validator for `query : str` (required).  A missing key is
`missing`; pydantic's default (smart) mode does not coerce non-string values
to `str`, reporting `string_type`. -/
def checkQuery (args : RawArgs) : Except FieldError String :=
  match lookupArg args "query" with
  | none => Except.error { loc := "query", type := "missing" }
  | some (PyValue.pyStr s) => Except.ok s
  | some _ => Except.error { loc := "query", type := "string_type" }

/-- Field validator for `num_results : int = 5, ge=1, le=10` (optional with
default).  Pydantic's lax mode coerces a decimal string to `int`
(`int_parsing` on failure); `None` is `int_type`. -/
def checkNumResultsField (args : RawArgs) : Except FieldError Int :=
  match lookupArg args "num_results" with
  | none => Except.ok 5
  | some (PyValue.pyInt n) => checkNumResults n
  | some (PyValue.pyStr s) =>
      match s.toInt? with
      | some n => checkNumResults n
      | none => Except.error { loc := "num_results", type := "int_parsing" }
  | some PyValue.pyNone => Except.error { loc := "num_results", type := "int_type" }

/-- Pydantic construction `GoogleSearchInput(**kwargs)`: validates both
fields, collecting all field errors in declaration order as pydantic's
`ValidationError` does. -/
def validateGoogleSearchInput (args : RawArgs) :
    Except (List FieldError) GoogleSearchInput :=
  match checkQuery args, checkNumResultsField args with
  | Except.ok q, Except.ok n => Except.ok { query := q, num_results := n }
  | Except.error e, Except.ok _ => Except.error [e]
  | Except.ok _, Except.error e => Except.error [e]
  | Except.error e1, Except.error e2 => Except.error [e1, e2]

/-! A smoke test of the validator on the spec's example inputs. -/

example : validateGoogleSearchInput [("query", PyValue.pyStr "acme"), ("num_results", PyValue.pyInt 0)]
    = Except.error [{ loc := "num_results", type := "greater_than_equal" }] := rfl

example : validateGoogleSearchInput [("num_results", PyValue.pyInt 11)]
    = Except.error [{ loc := "query", type := "missing" },
                    { loc := "num_results", type := "less_than_equal" }] := rfl

example : validateGoogleSearchInput [("query", PyValue.pyStr "acme")]
    = Except.ok { query := "acme", num_results := 5 } := rfl

/-! ## `WebFetchInput` (web_fetch_tool.py 12-25)

```python
class WebFetchInput(BaseModel):
    url: str = Field(...)
    mode: Literal["text", "html"] = Field(default="text", ...)
    timeout: int = Field(default=30, ge=5, le=120, ...)
```
-/

/-- The validated `WebFetchInput` record. -/
structure WebFetchInput where
  url : String
  mode : String
  timeout : Int
deriving DecidableEq, Repr

/-- Field validator for `url : str` (required). -/
def checkUrl (args : RawArgs) : Except FieldError String :=
  match lookupArg args "url" with
  | none => Except.error { loc := "url", type := "missing" }
  | some (PyValue.pyStr s) => Except.ok s
  | some _ => Except.error { loc := "url", type := "string_type" }

/-- Field validator for `mode : Literal["text", "html"]` with default
`"text"`; any value other than the two literals is a `literal_error`. -/
def checkMode (args : RawArgs) : Except FieldError String :=
  match lookupArg args "mode" with
  | none => Except.ok "text"
  | some (PyValue.pyStr s) =>
      if s = "text" ∨ s = "html" then Except.ok s
      else Except.error { loc := "mode", type := "literal_error" }
  | some _ => Except.error { loc := "mode", type := "literal_error" }

/-- Bounds check for `timeout` (`ge=5, le=120`). -/
def checkTimeout (n : Int) : Except FieldError Int :=
  if n < 5 then Except.error { loc := "timeout", type := "greater_than_equal" }
  else if 120 < n then Except.error { loc := "timeout", type := "less_than_equal" }
  else Except.ok n

/-- Field validator for `timeout : int = 30, ge=5, le=120`. -/
def checkTimeoutField (args : RawArgs) : Except FieldError Int :=
  match lookupArg args "timeout" with
  | none => Except.ok 30
  | some (PyValue.pyInt n) => checkTimeout n
  | some (PyValue.pyStr s) =>
      match s.toInt? with
      | some n => checkTimeout n
      | none => Except.error { loc := "timeout", type := "int_parsing" }
  | some PyValue.pyNone => Except.error { loc := "timeout", type := "int_type" }

/-- Pydantic construction `WebFetchInput(**kwargs)`: validates the three
fields, collecting all field errors in declaration order. -/
def validateWebFetchInput (args : RawArgs) :
    Except (List FieldError) WebFetchInput :=
  match checkUrl args, checkMode args, checkTimeoutField args with
  | Except.ok u, Except.ok m, Except.ok t => Except.ok { url := u, mode := m, timeout := t }
  | ru, rm, rt =>
      Except.error
        ((match ru with | Except.error e => [e] | Except.ok _ => []) ++
         (match rm with | Except.error e => [e] | Except.ok _ => []) ++
         (match rt with | Except.error e => [e] | Except.ok _ => []))

/-! ## Tool output records (google_search.py 24-37, web_fetch_tool.py 28-34) -/

/-- A single search result (`SearchResult`). -/
structure SearchResult where
  title : String
  url : String
  snippet : String
  position : Int
deriving DecidableEq, Repr

/-- `GoogleSearchOutput`: results plus approximate total count. -/
structure GoogleSearchOutput where
  results : List SearchResult
  total_results : Int
deriving DecidableEq, Repr

/-- `WebFetchOutput`: final URL, content, mode echoed back, optional title. -/
structure WebFetchOutput where
  url : String
  content : String
  mode : String
  title : Option String
deriving DecidableEq, Repr

/-! ## JSON values

Used both for the schema-export dictionaries of `base.py` and for the
`json.dumps`-serialized tool-result payloads of the agent loop. -/

/-- A JSON value (Python dicts keep insertion order, so an object is an
ordered association list). -/
inductive Json where
  | str (s : String)
  | num (n : Int)
  | arr (xs : List Json)
  | obj (fields : List (String × Json))
  | null
deriving Repr

/-- Key lookup in a JSON object (first match; `none` on non-objects). -/
def Json.lookup : Json → String → Option Json
  | Json.obj fields, key =>
      (fields.find? (fun p => p.1 = key)).map (fun p => p.2)
  | _, _ => none

/-! ## Schema export (base.py 65-92)

`to_openai_schema` and `to_anthropic_schema` wrap the tool's name,
description and `input_model.model_json_schema()` into the two fixed
protocol shapes. -/

/-- The identity-plus-schema part of a `BaseTool` subclass that the two
schema exporters read: `name`, `description` and the JSON Schema rendering
of its pydantic input model. -/
structure ToolMeta where
  name : String
  description : String
  input_json_schema : Json

/-- `BaseTool.to_openai_schema`: the function-calling shape. -/
def to_openai_schema (t : ToolMeta) : Json :=
  Json.obj [
    ("type", Json.str "function"),
    ("function", Json.obj [
      ("name", Json.str t.name),
      ("description", Json.str t.description),
      ("parameters", t.input_json_schema)])]

/-- `BaseTool.to_anthropic_schema`: the tool-use shape. -/
def to_anthropic_schema (t : ToolMeta) : Json :=
  Json.obj [
    ("name", Json.str t.name),
    ("description", Json.str t.description),
    ("input_schema", t.input_json_schema)]

/-- `GoogleSearchInput.model_json_schema()`: the JSON Schema pydantic
renders from the field declarations of google_search.py lines 12-21 —
`query` a required string, `num_results` an integer with `default 5`,
`minimum 1`, `maximum 10`; only `query` is listed in `required`. -/
def googleSearchInputJsonSchema : Json :=
  Json.obj [
    ("description", Json.str "Input parameters for Google Search."),
    ("properties", Json.obj [
      ("query", Json.obj [
        ("description", Json.str "The search query to execute"),
        ("title", Json.str "Query"),
        ("type", Json.str "string")]),
      ("num_results", Json.obj [
        ("default", Json.num 5),
        ("description", Json.str "Number of results to return (1-10)"),
        ("maximum", Json.num 10),
        ("minimum", Json.num 1),
        ("title", Json.str "Num Results"),
        ("type", Json.str "integer")])]),
    ("required", Json.arr [Json.str "query"]),
    ("title", Json.str "GoogleSearchInput"),
    ("type", Json.str "object")]

/-- The `GoogleSearchTool` class constants (google_search.py 61-68). -/
def googleSearchMeta : ToolMeta where
  name := "google_search"
  description :=
    "Search Google for information. Returns the top search results with " ++
    "titles, URLs, and snippets. Use this when you need to find current " ++
    "information, research topics, or look up facts online."
  input_json_schema := googleSearchInputJsonSchema

/-! ## `GoogleSearchTool.__init__` (google_search.py 70-84)

```python
def __init__(self, api_key: str | None = None):
    self.api_key = api_key or os.getenv("SERPAPI_API_KEY")
    if not self.api_key:
        raise ValueError("SERPAPI_API_KEY is required. Get one at https://serpapi.com/")
```
-/

/-- Python truthiness of an optional string: `None` and `""` are falsy. -/
def pyStrTruthy : Option String → Bool
  | none => false
  | some s => ¬ s = ""

/-- Python's `a or b` on optional strings. -/
def pyOr (a b : Option String) : Option String :=
  if pyStrTruthy a then a else b

/-- The `ValueError` message of the constructor. -/
def serpapiKeyRequiredMsg : String :=
  "SERPAPI_API_KEY is required. Get one at https://serpapi.com/"

/-- `GoogleSearchTool.__init__`: resolves the API key from the argument or
the `SERPAPI_API_KEY` environment variable (`envKey` models
`os.getenv("SERPAPI_API_KEY")`); raises `ValueError` when the resolved key
is falsy, otherwise the constructed tool holds the resolved key. -/
def googleSearchToolInit (api_key envKey : Option String) : Except PyError String :=
  let key := pyOr api_key envKey
  match key with
  | some k => if k = "" then Except.error (PyError.valueError serpapiKeyRequiredMsg) else Except.ok k
  | none => Except.error (PyError.valueError serpapiKeyRequiredMsg)

example : googleSearchToolInit none none
    = Except.error (PyError.valueError serpapiKeyRequiredMsg) := rfl

example : googleSearchToolInit (some "") (some "k") = Except.ok "k" := rfl

/-! ## The agent loop (agent.py, `CompanyResearchAgent.research_company`)

The conversation is an append-only list of messages; the model endpoint and
the two tools' `execute` methods are external effectful collaborators,
modelled as state-passing oracles over one state type `σ`. -/

/-- One tool-call request as emitted by the model: call identifier, declared
tool name, and the JSON-decoded argument object
(`json.loads(tool_call.function.arguments)`). -/
structure ToolCall where
  id : String
  name : String
  arguments : RawArgs

/-- One model response: textual content (`message.content`, possibly `None`)
and the list of tool-call requests, in emission order
(`message.tool_calls`, with the empty list standing for both `None` and
`[]`, which Python's `if not message.tool_calls` treats alike). -/
structure ModelResponse where
  content : Option String
  tool_calls : List ToolCall

/-- A conversation message (the `messages` list of `research_company`). -/
inductive Message where
  | system (content : String)
  | user (content : String)
  | assistant (resp : ModelResponse)
  | tool (tool_call_id : String) (content : Json)

/-- The call identifier carried by a tool-result message. -/
def Message.toolCallIdOf : Message → Option String
  | Message.tool id _ => some id
  | _ => none

/-- The external collaborators of one agent session: the chat-completion
endpoint and the `execute` methods of the registered `google_search` and
`web_fetch` tools, all threading one external-world state `σ`. -/
structure Env (σ : Type) where
  model : List Message → σ → ModelResponse × σ
  searchExec : GoogleSearchInput → σ → Except PyError GoogleSearchOutput × σ
  fetchExec : WebFetchInput → σ → Except PyError WebFetchOutput × σ

/-- The search tool-result payload built in agent.py lines 146-160:
`{"total_results": ..., "results": [{"position", "title", "url",
"snippet"}, ...]}`. -/
def formatSearchResult (r : GoogleSearchOutput) : Json :=
  Json.obj [
    ("total_results", Json.num r.total_results),
    ("results", Json.arr (r.results.map (fun sr =>
      Json.obj [
        ("position", Json.num sr.position),
        ("title", Json.str sr.title),
        ("url", Json.str sr.url),
        ("snippet", Json.str sr.snippet)])))]

/-- Python `None`-aware serialization of an optional string. -/
def jsonOfOptStr : Option String → Json
  | none => Json.null
  | some s => Json.str s

/-- The fetch tool-result payload built in agent.py lines 173-178:
`{"url", "title", "content", "mode"}`. -/
def formatFetchResult (r : WebFetchOutput) : Json :=
  Json.obj [
    ("url", Json.str r.url),
    ("title", jsonOfOptStr r.title),
    ("content", Json.str r.content),
    ("mode", Json.str r.mode)]

/-- The body of the `try` block for one tool-call request (agent.py lines
139-195): dispatch on the declared tool name; for a registered tool call
`validate_and_execute` and build the success payload; for an unknown name
build the `Unknown tool` error payload without touching any tool.  An
`Except.error` outcome is an exception escaping the `try` body. -/
def dispatchToolCall {σ : Type} (env : Env σ) (tc : ToolCall) (s : σ) :
    Except PyError Json × σ :=
  if tc.name = "google_search" then
    let p := validate_and_execute_s validateGoogleSearchInput env.searchExec tc.arguments s
    (p.1.map formatSearchResult, p.2)
  else if tc.name = "web_fetch" then
    let p := validate_and_execute_s validateWebFetchInput env.fetchExec tc.arguments s
    (p.1.map formatFetchResult, p.2)
  else
    (Except.ok (Json.obj [("error", Json.str ("Unknown tool: " ++ tc.name))]), s)

/-- One tool-call request handled to completion (agent.py lines 135-203):
the `try` body, with `except Exception as e` converting any escaping
exception into the `{"error": str(e)}` payload; either way exactly one
tool-result message carrying the request's call identifier is produced. -/
def execToolCall {σ : Type} (env : Env σ) (tc : ToolCall) (s : σ) : Message × σ :=
  (match (dispatchToolCall env tc s).1 with
   | Except.ok j => Message.tool tc.id j
   | Except.error e => Message.tool tc.id (Json.obj [("error", Json.str (pyErrMsg e))]),
   (dispatchToolCall env tc s).2)

/-- The `for tool_call in message.tool_calls` loop: handles the requests in
emission order, appending one tool-result message per request. -/
def processToolCalls {σ : Type} (env : Env σ) : List ToolCall → σ → List Message × σ
  | [], s => ([], s)
  | tc :: rest, s =>
      let p := execToolCall env tc s
      let q := processToolCalls env rest p.2
      (p.1 :: q.1, q.2)

/-- The sentinel returned when the turn budget is exhausted (agent.py line
207). -/
def maxTurnsSentinel : String := "Research incomplete - reached maximum turns"

/-- The `while turn_count < max_turns` loop of `research_company` (agent.py
lines 113-207), with `fuel = max_turns - turn_count` remaining iterations.
Each iteration sends the conversation to the model, appends the assistant
message, returns the response's content if it carries no tool calls, and
otherwise appends the tool-result messages and continues; on exhausted fuel
the fixed sentinel is returned.  The result triple is (returned string — or
`None` content —, final conversation, final external state). -/
def agentLoopAux {σ : Type} (env : Env σ) :
    Nat → List Message → σ → Option String × List Message × σ
  | 0, messages, s => (some maxTurnsSentinel, messages, s)
  | fuel + 1, messages, s =>
      let resp := (env.model messages s).1
      let s1 := (env.model messages s).2
      let messages1 := messages ++ [Message.assistant resp]
      if resp.tool_calls.isEmpty then
        (resp.content, messages1, s1)
      else
        let pr := processToolCalls env resp.tool_calls s1
        agentLoopAux env fuel (messages1 ++ pr.1) pr.2

/-- The system prompt of `research_company` (agent.py lines 90-105). -/
def researchSystemPrompt : String :=
  "You are a company research analyst. Your job is to research companies thoroughly using web search and content fetching."

/-- `research_company(company_name)`: seeds the conversation with the
system message and the user task, then runs the loop with
`turn_count = 0` and `max_turns = 10` (the full instructional text of the
system prompt is abbreviated to its first sentence; no claim depends on
it). -/
def research_company {σ : Type} (env : Env σ) (company_name : String) (s : σ) :
    Option String × List Message × σ :=
  agentLoopAux env 10
    [Message.system researchSystemPrompt,
     Message.user ("Research " ++ company_name ++ " and create a comprehensive company report.")]
    s

/-- An environment instrumented with a model round-trip counter: the
underlying collaborators run unchanged on the first state component, and
the counter increments exactly on model calls. -/
def withModelCounter {σ : Type} (env : Env σ) : Env (σ × Nat) where
  model := fun msgs p => ((env.model msgs p.1).1, ((env.model msgs p.1).2, p.2 + 1))
  searchExec := fun i p => ((env.searchExec i p.1).1, ((env.searchExec i p.1).2, p.2))
  fetchExec := fun i p => ((env.fetchExec i p.1).1, ((env.fetchExec i p.1).2, p.2))

/-! ## Stub collaborators used by concrete witnesses -/

/-- An empty search output. -/
def stubSearchOutput : GoogleSearchOutput := { results := [], total_results := 0 }

/-- A search `execute` oracle that always succeeds with the empty output. -/
def stubSearchExec : GoogleSearchInput → Unit → Except PyError GoogleSearchOutput × Unit :=
  fun _ s => (Except.ok stubSearchOutput, s)

/-- A fetch `execute` oracle that always succeeds. -/
def stubFetchExec : WebFetchInput → Unit → Except PyError WebFetchOutput × Unit :=
  fun i s => (Except.ok { url := i.url, content := "", mode := i.mode, title := none }, s)

/-- A search `execute` oracle that always raises `RateLimitError`, as the
SerpAPI client does on HTTP 429 (google_search.py line 150). -/
def failingSearchExec : GoogleSearchInput → Unit → Except PyError GoogleSearchOutput × Unit :=
  fun _ s => (Except.error (PyError.rateLimitError "SerpAPI rate limit exceeded"), s)

/-! ## Claim C1 -/

/-- Claim C1, counterexample.  At the concrete invalid mapping
`query="acme", num_results=0`, `validate_and_execute` does fail and the
error does name the invalid field and the violated constraint — but the
exception raised is pydantic's `ValidationError`, which is NOT the
`ValidationError` variant of the repository's `ToolExecutionError` taxonomy
(`exceptions.py`); that taxonomy variant is never raised by the contract
layer.  This refutes the claim as stated. -/
theorem validation_error_not_taxonomy_counterexample :
    (validate_and_execute_s validateGoogleSearchInput stubSearchExec
        [("query", PyValue.pyStr "acme"), ("num_results", PyValue.pyInt 0)] ()).1
      = Except.error (PyError.pydanticValidationError
          [{ loc := "num_results", type := "greater_than_equal" }])
    ∧ isTaxonomyValidationError (PyError.pydanticValidationError
          [{ loc := "num_results", type := "greater_than_equal" }]) = false
    ∧ isToolExecutionError (PyError.pydanticValidationError
          [{ loc := "num_results", type := "greater_than_equal" }]) = false :=
  ⟨rfl, rfl, rfl⟩

/-- Claim C1, amended.  For every raw argument mapping that violates a
tool's declared input schema, `validate_and_execute` fails with pydantic's
`ValidationError` — a class outside the repository's `ToolExecutionError`
taxonomy — carrying exactly the list of invalid fields and the constraints
violated, and the state is untouched (execution logic is never invoked). -/
theorem validation_failure_raises_pydantic_error {I O σ : Type}
    (validate : RawArgs → Except (List FieldError) I)
    (execute : I → σ → Except PyError O × σ)
    (args : RawArgs) (s : σ) (errs : List FieldError)
    (h : validate args = Except.error errs) :
    validate_and_execute_s validate execute args s
      = (Except.error (PyError.pydanticValidationError errs), s) := by
  unfold validate_and_execute_s
  rw [h]

/-- Witness for the amended claim C1: the search tool's schema rejects
`num_results = 11` with a `less_than_equal` violation on `num_results`. -/
theorem validation_failure_raises_pydantic_error_witness :
    validateGoogleSearchInput [("query", PyValue.pyStr "acme"), ("num_results", PyValue.pyInt 11)]
      = Except.error [{ loc := "num_results", type := "less_than_equal" }]
    ∧ validate_and_execute_s validateGoogleSearchInput stubSearchExec
        [("query", PyValue.pyStr "acme"), ("num_results", PyValue.pyInt 11)] ()
      = (Except.error (PyError.pydanticValidationError
          [{ loc := "num_results", type := "less_than_equal" }]), ()) :=
  ⟨rfl, validation_failure_raises_pydantic_error _ _ _ _ _ rfl⟩

/-! ## Claim C2 -/

/-- Claim C2.  When the raw arguments fail schema validation, the `execute`
extension point is never invoked: with a call-counter instrumentation the
count stays 0.  Moreover (second conjunct), on ANY arguments either the
counter is untouched (no invocation happened) or the arguments passed
schema validation — `execute` is only ever reached with a validated
input. -/
theorem execute_not_invoked_on_invalid_input {I O σ : Type}
    (validate : RawArgs → Except (List FieldError) I)
    (execute : I → σ → Except PyError O × σ)
    (args : RawArgs) (s : σ) (errs : List FieldError)
    (h : validate args = Except.error errs) :
    (validate_and_execute_s validate (countingExec execute) args (s, 0)).2.2 = 0
    ∧ ∀ (args2 : RawArgs) (p : σ × Nat),
        (validate_and_execute_s validate (countingExec execute) args2 p).2.2 = p.2
        ∨ ∃ i, validate args2 = Except.ok i := by
  constructor
  · unfold validate_and_execute_s
    rw [h]
  · intro args2 p
    unfold validate_and_execute_s
    cases hv : validate args2 with
    | error errs2 => exact Or.inl rfl
    | ok i => exact Or.inr ⟨i, rfl⟩

/-- Witness for claim C2: with `query` missing, the counter stays 0. -/
theorem execute_not_invoked_on_invalid_input_witness :
    validateGoogleSearchInput [("num_results", PyValue.pyInt 3)]
      = Except.error [{ loc := "query", type := "missing" }]
    ∧ ((validate_and_execute_s validateGoogleSearchInput (countingExec stubSearchExec)
          [("num_results", PyValue.pyInt 3)] ((), 0)).2.2 = 0
      ∧ ∀ (args2 : RawArgs) (p : Unit × Nat),
          (validate_and_execute_s validateGoogleSearchInput (countingExec stubSearchExec)
              args2 p).2.2 = p.2
          ∨ ∃ i, validateGoogleSearchInput args2 = Except.ok i) :=
  ⟨rfl, execute_not_invoked_on_invalid_input _ _ _ _ _ rfl⟩

/-! ## Claim C8 -/

/-- Claim C8.  For every tool and every input that passed validation, any
`AuthenticationError`, `RateLimitError` or `ToolExecutionError` raised by
the `execute` extension point propagates unchanged — same variant, same
message, same resulting external state — out of `validate_and_execute`:
the contract layer neither catches, wraps, nor reclassifies it. -/
theorem extension_point_error_propagates_unchanged {I O σ : Type}
    (validate : RawArgs → Except (List FieldError) I)
    (execute : I → σ → Except PyError O × σ)
    (args : RawArgs) (s : σ) (i : I) (e : PyError) (s' : σ)
    (hv : validate args = Except.ok i)
    (hx : execute i s = (Except.error e, s'))
    (_hkind : isExtensionPointError e = true) :
    validate_and_execute_s validate execute args s = (Except.error e, s') := by
  unfold validate_and_execute_s
  rw [hv]
  exact hx

/-- Witness for claim C8: a `RateLimitError` raised by the search tool's
`execute` comes out of `validate_and_execute` unchanged. -/
theorem extension_point_error_propagates_unchanged_witness :
    validateGoogleSearchInput [("query", PyValue.pyStr "acme")]
      = Except.ok { query := "acme", num_results := 5 }
    ∧ failingSearchExec { query := "acme", num_results := 5 } ()
      = (Except.error (PyError.rateLimitError "SerpAPI rate limit exceeded"), ())
    ∧ isExtensionPointError (PyError.rateLimitError "SerpAPI rate limit exceeded") = true
    ∧ validate_and_execute_s validateGoogleSearchInput failingSearchExec
        [("query", PyValue.pyStr "acme")] ()
      = (Except.error (PyError.rateLimitError "SerpAPI rate limit exceeded"), ()) :=
  ⟨rfl, rfl, rfl,
    extension_point_error_propagates_unchanged _ _ _ _ _ _ _ rfl rfl rfl⟩

/-! ## Step equations and counter-preservation lemmas for the loop -/

/-- One-step unfolding of the loop body (the `while` iteration of agent.py
lines 113-203). -/
theorem agentLoopAux_succ {σ : Type} (env : Env σ) (fuel : Nat)
    (messages : List Message) (s : σ) :
    agentLoopAux env (fuel + 1) messages s =
      if ((env.model messages s).1.tool_calls).isEmpty then
        ((env.model messages s).1.content,
         messages ++ [Message.assistant (env.model messages s).1],
         (env.model messages s).2)
      else
        agentLoopAux env fuel
          ((messages ++ [Message.assistant (env.model messages s).1])
            ++ (processToolCalls env (env.model messages s).1.tool_calls
                  (env.model messages s).2).1)
          (processToolCalls env (env.model messages s).1.tool_calls
            (env.model messages s).2).2 := rfl

/-- Unfolding of the per-turn tool-call iteration on a nonempty request
list. -/
theorem processToolCalls_cons {σ : Type} (env : Env σ) (tc : ToolCall)
    (rest : List ToolCall) (s : σ) :
    processToolCalls env (tc :: rest) s
      = ((execToolCall env tc s).1
          :: (processToolCalls env rest (execToolCall env tc s).2).1,
         (processToolCalls env rest (execToolCall env tc s).2).2) := rfl

/-- Handling one tool-call request never touches the model round-trip
counter. -/
theorem dispatchToolCall_counter {σ : Type} (env : Env σ) (tc : ToolCall)
    (p : σ × Nat) :
    (dispatchToolCall (withModelCounter env) tc p).2.2 = p.2 := by
  by_cases h1 : tc.name = "google_search"
  · simp only [dispatchToolCall, if_pos h1, validate_and_execute_s]
    cases validateGoogleSearchInput tc.arguments <;> rfl
  · by_cases h2 : tc.name = "web_fetch"
    · simp only [dispatchToolCall, if_neg h1, if_pos h2, validate_and_execute_s]
      cases validateWebFetchInput tc.arguments <;> rfl
    · simp only [dispatchToolCall, if_neg h1, if_neg h2]

/-- Counter preservation, lifted through the `try`/`except` wrapper. -/
theorem execToolCall_counter {σ : Type} (env : Env σ) (tc : ToolCall)
    (p : σ × Nat) :
    (execToolCall (withModelCounter env) tc p).2.2 = p.2 :=
  dispatchToolCall_counter env tc p

/-- Counter preservation for a whole turn's worth of tool calls. -/
theorem processToolCalls_counter {σ : Type} (env : Env σ) (tcs : List ToolCall) :
    ∀ (p : σ × Nat), (processToolCalls (withModelCounter env) tcs p).2.2 = p.2 := by
  induction tcs with
  | nil => intro p; rfl
  | cons tc rest ih =>
      intro p
      rw [processToolCalls_cons]
      exact (ih _).trans (execToolCall_counter env tc p)

/-! ## Witness environments -/

/-- A session environment whose model immediately answers with text and no
tool calls. -/
def stubEnv : Env Unit where
  model := fun _ s => ({ content := some "hi", tool_calls := [] }, s)
  searchExec := stubSearchExec
  fetchExec := stubFetchExec

/-- A valid `google_search` tool-call request. -/
def rlCall : ToolCall :=
  { id := "call_1", name := "google_search",
    arguments := [("query", PyValue.pyStr "acme")] }

/-- A session environment whose model always requests one search call and
whose search tool is rate limited. -/
def rateLimitedEnv : Env Unit where
  model := fun _ s => ({ content := none, tool_calls := [rlCall] }, s)
  searchExec := failingSearchExec
  fetchExec := stubFetchExec

/-- A tool-call request whose declared name matches no registered tool. -/
def unknownCall : ToolCall := { id := "call_9", name := "calculator", arguments := [] }

/-! ## Claim C3 -/

/-- Claim C3.  For any tools and any model stub that always returns at
least one tool call, the loop with a turn budget of `N` returns the fixed
incomplete sentinel (a normal return, not a raised exception), and the
model round-trip counter advances by exactly `N` — an `(N+1)`-th round-trip
never happens. -/
theorem loop_turn_limit_sentinel {σ : Type} (env : Env σ)
    (h : ∀ (msgs : List Message) (s : σ), (env.model msgs s).1.tool_calls ≠ []) :
    ∀ (N : Nat) (msgs : List Message) (p : σ × Nat),
      (agentLoopAux (withModelCounter env) N msgs p).1 = some maxTurnsSentinel
      ∧ (agentLoopAux (withModelCounter env) N msgs p).2.2.2 = p.2 + N := by
  intro N
  induction N with
  | zero => intro msgs p; exact ⟨rfl, rfl⟩
  | succ n ih =>
      intro msgs p
      rw [agentLoopAux_succ]
      have hne : ¬ ((((withModelCounter env).model msgs p).1.tool_calls).isEmpty = true) := by
        rw [List.isEmpty_iff]
        exact h msgs p.1
      rw [if_neg hne]
      refine ⟨(ih _ _).1, ?_⟩
      rw [(ih _ _).2, processToolCalls_counter]
      show p.2 + 1 + n = p.2 + (n + 1)
      omega

/-- Witness for claim C3: a model stub that always requests a tool call, with `maxTurns = 3`, makes
exactly 3 round-trips and yields the sentinel. -/
theorem loop_turn_limit_sentinel_witness :
    (∀ (msgs : List Message) (s : Unit), (rateLimitedEnv.model msgs s).1.tool_calls ≠ [])
    ∧ ((agentLoopAux (withModelCounter rateLimitedEnv) 3 [] ((), 0)).1 = some maxTurnsSentinel
      ∧ (agentLoopAux (withModelCounter rateLimitedEnv) 3 [] ((), 0)).2.2.2 = 0 + 3) :=
  ⟨fun _ _ => List.cons_ne_nil _ _,
   loop_turn_limit_sentinel rateLimitedEnv (fun _ _ => List.cons_ne_nil _ _) 3 [] ((), 0)⟩

/-! ## Claim C4 -/

/-- Claim C4.  Any exception (in particular any ToolError) escaping a tool
call is caught at the per-call boundary and converted into one appended
tool-result message with payload `{"error": str(e)}` carrying the failing
request's call identifier; the remaining requests of the turn are still
processed (the result list continues with their results), and the loop
step unconditionally proceeds to the next turn — a single tool failure
never aborts the session. -/
theorem tool_error_isolated_per_call {σ : Type} (env : Env σ)
    (tc : ToolCall) (rest : List ToolCall) (s : σ) (e : PyError)
    (h : (dispatchToolCall env tc s).1 = Except.error e) :
    (processToolCalls env (tc :: rest) s).1
      = Message.tool tc.id (Json.obj [("error", Json.str (pyErrMsg e))])
        :: (processToolCalls env rest (dispatchToolCall env tc s).2).1
    ∧ (processToolCalls env (tc :: rest) s).2
      = (processToolCalls env rest (dispatchToolCall env tc s).2).2
    ∧ ∀ (fuel : Nat) (msgs : List Message) (s0 : σ),
        (env.model msgs s0).1.tool_calls ≠ [] →
        agentLoopAux env (fuel + 1) msgs s0
          = agentLoopAux env fuel
              ((msgs ++ [Message.assistant (env.model msgs s0).1])
                ++ (processToolCalls env (env.model msgs s0).1.tool_calls
                      (env.model msgs s0).2).1)
              (processToolCalls env (env.model msgs s0).1.tool_calls
                (env.model msgs s0).2).2 := by
  have hexec : execToolCall env tc s
      = (Message.tool tc.id (Json.obj [("error", Json.str (pyErrMsg e))]),
         (dispatchToolCall env tc s).2) := by
    unfold execToolCall
    rw [h]
  refine ⟨?_, ?_, ?_⟩
  · rw [processToolCalls_cons, hexec]
  · rw [processToolCalls_cons, hexec]
  · intro fuel msgs s0 hne
    rw [agentLoopAux_succ, if_neg (by rw [List.isEmpty_iff]; exact hne)]

/-- Witness for claim C4: one rate-limited search call in a one-request
turn. -/
theorem tool_error_isolated_per_call_witness :
    (dispatchToolCall rateLimitedEnv rlCall ()).1
      = Except.error (PyError.rateLimitError "SerpAPI rate limit exceeded")
    ∧ ((processToolCalls rateLimitedEnv (rlCall :: []) ()).1
        = Message.tool rlCall.id (Json.obj [("error",
            Json.str (pyErrMsg (PyError.rateLimitError "SerpAPI rate limit exceeded")))])
          :: (processToolCalls rateLimitedEnv [] (dispatchToolCall rateLimitedEnv rlCall ()).2).1
      ∧ (processToolCalls rateLimitedEnv (rlCall :: []) ()).2
        = (processToolCalls rateLimitedEnv [] (dispatchToolCall rateLimitedEnv rlCall ()).2).2
      ∧ ∀ (fuel : Nat) (msgs : List Message) (s0 : Unit),
          (rateLimitedEnv.model msgs s0).1.tool_calls ≠ [] →
          agentLoopAux rateLimitedEnv (fuel + 1) msgs s0
            = agentLoopAux rateLimitedEnv fuel
                ((msgs ++ [Message.assistant (rateLimitedEnv.model msgs s0).1])
                  ++ (processToolCalls rateLimitedEnv
                        (rateLimitedEnv.model msgs s0).1.tool_calls
                        (rateLimitedEnv.model msgs s0).2).1)
                (processToolCalls rateLimitedEnv
                  (rateLimitedEnv.model msgs s0).1.tool_calls
                  (rateLimitedEnv.model msgs s0).2).2) :=
  ⟨rfl,
   tool_error_isolated_per_call rateLimitedEnv rlCall [] ()
     (PyError.rateLimitError "SerpAPI rate limit exceeded") rfl⟩

/-! ## Claim C5 -/

/-- Every handled tool-call request yields a tool-result message carrying
that request's call identifier, in the success, tool-error and unknown-tool
branches alike. -/
theorem execToolCall_id {σ : Type} (env : Env σ) (tc : ToolCall) (s : σ) :
    Message.toolCallIdOf (execToolCall env tc s).1 = some tc.id := by
  unfold execToolCall
  cases (dispatchToolCall env tc s).1 <;> rfl

/-- Claim C5.  Within one turn, the tool-result messages are produced in
exactly the order of the model's tool-call requests, and the `i`-th result
carries the call identifier of the `i`-th request — in the success,
tool-error and unknown-tool branches alike. -/
theorem tool_results_in_request_order_with_matching_ids {σ : Type} (env : Env σ)
    (tcs : List ToolCall) :
    ∀ (s : σ),
      ((processToolCalls env tcs s).1).map Message.toolCallIdOf
        = tcs.map (fun tc => some tc.id) := by
  induction tcs with
  | nil => intro s; rfl
  | cons tc rest ih =>
      intro s
      rw [processToolCalls_cons]
      show Message.toolCallIdOf (execToolCall env tc s).1
            :: ((processToolCalls env rest (execToolCall env tc s).2).1).map Message.toolCallIdOf
          = some tc.id :: rest.map (fun tc => some tc.id)
      rw [execToolCall_id, ih]

/-! ## Claim C6 -/

/-- Claim C6.  If the model's response carries no tool-call requests, the
loop terminates in that same turn: it returns the response's textual
content unchanged, the conversation ends with that assistant message, and
the model round-trip counter advances by exactly one. -/
theorem loop_returns_content_when_no_tool_calls {σ : Type} (env : Env σ)
    (msgs : List Message) (s : σ) (fuel : Nat)
    (h : (env.model msgs s).1.tool_calls = []) :
    agentLoopAux env (fuel + 1) msgs s
      = ((env.model msgs s).1.content,
         msgs ++ [Message.assistant (env.model msgs s).1],
         (env.model msgs s).2)
    ∧ ∀ (c : Nat),
        (agentLoopAux (withModelCounter env) (fuel + 1) msgs (s, c)).2.2.2 = c + 1 := by
  constructor
  · rw [agentLoopAux_succ, if_pos (by rw [List.isEmpty_iff]; exact h)]
  · intro c
    have h2 : (((withModelCounter env).model msgs (s, c)).1.tool_calls) = [] := h
    rw [agentLoopAux_succ, if_pos (by rw [List.isEmpty_iff]; exact h2)]
    rfl

/-- Witness for claim C6: a model stub returning zero tool calls on turn 1
finishes in one round-trip with its text unchanged. -/
theorem loop_returns_content_when_no_tool_calls_witness :
    (stubEnv.model [] ()).1.tool_calls = []
    ∧ (agentLoopAux stubEnv 1 [] ()
        = ((stubEnv.model [] ()).1.content,
           [] ++ [Message.assistant (stubEnv.model [] ()).1],
           (stubEnv.model [] ()).2)
      ∧ ∀ (c : Nat),
          (agentLoopAux (withModelCounter stubEnv) 1 [] ((), c)).2.2.2 = c + 1) :=
  ⟨rfl, loop_returns_content_when_no_tool_calls stubEnv [] () 0 rfl⟩

/-! ## Claim C7 -/

/-- Claim C7.  A tool-call request whose declared name matches neither
registered tool produces the tool-result message
`{"error": "Unknown tool: <name>"}` carrying the request's call identifier,
and the external state is returned unchanged: for every instrumentation of
the two tools' `execute` oracles (e.g. call counters threaded through `σ`),
no invocation of `validate_and_execute` or `execute` happens. -/
theorem unknown_tool_yields_error_without_invocation {σ : Type} (env : Env σ)
    (tc : ToolCall) (s : σ)
    (h1 : tc.name ≠ "google_search") (h2 : tc.name ≠ "web_fetch") :
    execToolCall env tc s
      = (Message.tool tc.id
          (Json.obj [("error", Json.str ("Unknown tool: " ++ tc.name))]), s) := by
  unfold execToolCall dispatchToolCall
  rw [if_neg h1, if_neg h2]

/-- Witness for claim C7: a request for the unregistered tool name
`calculator`. -/
theorem unknown_tool_yields_error_without_invocation_witness :
    ("calculator" : String) ≠ "google_search"
    ∧ ("calculator" : String) ≠ "web_fetch"
    ∧ execToolCall stubEnv unknownCall ()
      = (Message.tool unknownCall.id
          (Json.obj [("error", Json.str ("Unknown tool: " ++ unknownCall.name))]), ()) :=
  ⟨by decide, by decide,
   unknown_tool_yields_error_without_invocation stubEnv unknownCall ()
     (by decide) (by decide)⟩

/-! ## Claim C9 -/

/-- Claim C9.  For every tool, the two schema exporters produce exactly the
two fixed protocol shapes — the function-calling shape
`{"type": "function", "function": {"name", "description", "parameters"}}`
and the tool-use shape `{"name", "description", "input_schema"}` — both
pure functions of the tool's name, description and declared input schema;
and for the search tool both embed the same generated JSON Schema, which
lists exactly `query` as required and gives `num_results` a default of 5
with bounds `minimum = 1` and `maximum = 10`. -/
theorem to_call_schema_shapes :
    (∀ t : ToolMeta,
      to_openai_schema t
        = Json.obj [
            ("type", Json.str "function"),
            ("function", Json.obj [
              ("name", Json.str t.name),
              ("description", Json.str t.description),
              ("parameters", t.input_json_schema)])]
      ∧ to_anthropic_schema t
        = Json.obj [
            ("name", Json.str t.name),
            ("description", Json.str t.description),
            ("input_schema", t.input_json_schema)])
    ∧ ((to_openai_schema googleSearchMeta).lookup "function").bind
        (fun f => f.lookup "parameters") = some googleSearchInputJsonSchema
    ∧ (to_anthropic_schema googleSearchMeta).lookup "input_schema"
        = some googleSearchInputJsonSchema
    ∧ googleSearchInputJsonSchema.lookup "required"
        = some (Json.arr [Json.str "query"])
    ∧ (((googleSearchInputJsonSchema.lookup "properties").bind
          (fun ps => ps.lookup "num_results")).bind
        (fun nr => nr.lookup "default")) = some (Json.num 5)
    ∧ (((googleSearchInputJsonSchema.lookup "properties").bind
          (fun ps => ps.lookup "num_results")).bind
        (fun nr => nr.lookup "minimum")) = some (Json.num 1)
    ∧ (((googleSearchInputJsonSchema.lookup "properties").bind
          (fun ps => ps.lookup "num_results")).bind
        (fun nr => nr.lookup "maximum")) = some (Json.num 10) :=
  ⟨fun _ => ⟨rfl, rfl⟩, rfl, rfl, rfl, rfl, rfl, rfl⟩

/-! ## Claim C10 -/

/-- Claim C10.  Constructing the search tool with no API key — a falsy
`api_key` argument (absent or empty) and a falsy `SERPAPI_API_KEY`
environment variable — fails at construction time with a `ValueError`; no
tool value exists, so no `validate_and_execute` or `execute` call on it is
possible, and this `ValueError` lies outside the `ToolExecutionError`
taxonomy of `exceptions.py`. -/
theorem missing_api_key_init_raises_value_error (a e : Option String)
    (ha : pyStrTruthy a = false) (he : pyStrTruthy e = false) :
    googleSearchToolInit a e = Except.error (PyError.valueError serpapiKeyRequiredMsg)
    ∧ isToolExecutionError (PyError.valueError serpapiKeyRequiredMsg) = false := by
  refine ⟨?_, rfl⟩
  unfold googleSearchToolInit pyOr
  rw [ha]
  cases e with
  | none => rfl
  | some k =>
      have hk : k = "" := by
        by_contra hk
        simp [pyStrTruthy, hk] at he
      simp [hk]

/-- Witness for claim C10: `api_key = None` and `SERPAPI_API_KEY = ""`. -/
theorem missing_api_key_init_raises_value_error_witness :
    pyStrTruthy none = false
    ∧ pyStrTruthy (some "") = false
    ∧ (googleSearchToolInit none (some "")
        = Except.error (PyError.valueError serpapiKeyRequiredMsg)
      ∧ isToolExecutionError (PyError.valueError serpapiKeyRequiredMsg) = false) :=
  ⟨rfl, by decide,
   missing_api_key_init_raises_value_error none (some "") rfl (by decide)⟩
